import Mathlib

/-!
Shallow embedding of `src/evidently/future/datasets.py`: the typed-dataset
core (the `DataDefinition` schema, column-type inference, per-column
statistics and the descriptor pipeline of `PandasDataset`).  Python values
are modelled as follows: the numeric cell values the claims depend on are
rationals plus explicit infinity/missing markers, Python exceptions are
`Except` errors, and Python dicts (which preserve insertion order) are
association lists.
-/

namespace Evidently

/-- Conceptual kinds for the Python exceptions this module can raise
(section 7 of the design calls them kinds, not literal exception classes).
`indexError` realizes the spec's InferenceFailure (raised when
`infer_column_type` inspects the first element of an empty `dropna()`
result), `valueError` realizes InvalidTaskDefinition and
DuplicateNameLookup, and `zeroDivisionError` the unguarded
`infinite_count / data.count()` division. -/
inductive PyError where
  | typeError
  | valueError
  | indexError
  | keyError
  | zeroDivisionError
  deriving DecidableEq

/-- Decidable equality for `Except` results, needed to state and evaluate
properties of the fallible operations below. -/
instance {ε α : Type} [DecidableEq ε] [DecidableEq α] :
    DecidableEq (Except ε α) := fun x y =>
  match x, y with
  | .ok a, .ok b =>
    if h : a = b then isTrue (by rw [h])
    else isFalse (fun hh => h (Except.ok.inj hh))
  | .error a, .error b =>
    if h : a = b then isTrue (by rw [h])
    else isFalse (fun hh => h (Except.error.inj hh))
  | .ok _, .error _ => isFalse (fun hh => Except.noConfusion hh)
  | .error _, .ok _ => isFalse (fun hh => Except.noConfusion hh)

/-- Modelled from the spec: `Label` (imported from
`evidently.metric_results`) is a task-label value, an int or a string. -/
inductive Label where
  | int (n : ℤ)
  | str (s : String)
  deriving DecidableEq

/-- Modelled from the spec: the semantic column type enum imported from
`evidently.core` — the closed set of tags of the data model (section 3). -/
inductive ColumnType where
  | Numerical
  | Categorical
  | Text
  | Datetime
  | Date
  | Id
  | List
  | Unknown
  deriving DecidableEq

/-- The `BinaryClassification` dataclass fields. -/
structure BinaryClassification where
  name : String
  target : String
  prediction_labels : Option String
  prediction_probas : Option String
  pos_label : Label
  labels : Option (List (Label × String))
  deriving DecidableEq

/-- `BinaryClassification.__init__`: every keyword argument is optional;
all omitted builds the conventional default spec, a partial specification
raises `ValueError`. -/
def BinaryClassification.init (name : String) (target : Option String)
    (prediction_labels : Option String) (prediction_probas : Option String)
    (pos_label : Option Label) (labels : Option (List (Label × String))) :
    Except PyError BinaryClassification :=
  if target = none ∧ prediction_labels = none ∧ prediction_probas = none ∧
      pos_label = none ∧ labels = none then
    .ok ⟨name, "target", none, some "prediction", .int 1, none⟩
  else
    match target with
    | none => .error .valueError
    | some t =>
      if prediction_labels = none ∧ prediction_probas = none then
        .error .valueError
      else
        .ok ⟨name, t, prediction_labels, prediction_probas,
          pos_label.getD (.int 1), labels⟩

/-- The `MulticlassClassification` dataclass fields. -/
structure MulticlassClassification where
  name : String
  target : String
  prediction_labels : Option String
  prediction_probas : Option (List String)
  labels : Option (List (Label × String))
  deriving DecidableEq

/-- `MulticlassClassification.__init__`. -/
def MulticlassClassification.init (name : String) (target : Option String)
    (prediction_labels : Option String) (prediction_probas : Option (List String))
    (labels : Option (List (Label × String))) :
    Except PyError MulticlassClassification :=
  if target = none ∧ prediction_labels = none ∧ prediction_probas = none ∧
      labels = none then
    .ok ⟨name, "target", some "prediction", none, none⟩
  else
    match target with
    | none => .error .valueError
    | some t =>
      if prediction_labels = none ∧ prediction_probas = none then
        .error .valueError
      else
        .ok ⟨name, t, prediction_labels, prediction_probas, labels⟩

/-- `Classification = Union[BinaryClassification, MulticlassClassification]`. -/
inductive Classification where
  | binary (c : BinaryClassification)
  | multiclass (c : MulticlassClassification)
  deriving DecidableEq

/-- The `name` attribute shared by both classification variants. -/
def Classification.name : Classification → String
  | .binary c => c.name
  | .multiclass c => c.name

/-- The `Regression` dataclass. -/
structure Regression where
  name : String := "default"
  target : String := "target"
  prediction : String := "prediction"
  deriving DecidableEq

/-- The `Recsys` dataclass (the ranking task). -/
structure Recsys where
  name : String := "default"
  user_id : String := "user_id"
  target : String := "target"
  prediction : String := "prediction"
  deriving DecidableEq

/-- `LLMDefinition = Union[Completion, RAG]` (both field-less dataclasses). -/
inductive LLMDefinition where
  | completion
  | rag
  deriving DecidableEq

/-- The `DataDefinition` schema object.  Each of the four column-role sets
is tri-state: `none` is Python `None` ("unset", triggers inference),
`some []` is an explicitly empty sequence.  The two descriptor sets are
plain lists, never unset. -/
structure DataDefinition where
  id_column : Option String := none
  timestamp : Option String := none
  numerical_columns : Option (List String) := none
  categorical_columns : Option (List String) := none
  text_columns : Option (List String) := none
  datetime_columns : Option (List String) := none
  classification : Option (List Classification) := none
  regression : Option (List Regression) := none
  llm : Option LLMDefinition := none
  numerical_descriptors : List String := []
  categorical_descriptors : List String := []
  ranking : Option (List Recsys) := none
  deriving DecidableEq

/-- `DataDefinition.__init__`: a plain field assignment with no validation;
only the two descriptor arguments are defaulted from `None` to `[]`. -/
def DataDefinition.init (id_column timestamp : Option String)
    (numerical_columns categorical_columns text_columns datetime_columns :
      Option (List String))
    (classification : Option (List Classification))
    (regression : Option (List Regression)) (llm : Option LLMDefinition)
    (numerical_descriptors categorical_descriptors : Option (List String))
    (ranking : Option (List Recsys)) : DataDefinition :=
  ⟨id_column, timestamp, numerical_columns, categorical_columns, text_columns,
    datetime_columns, classification, regression, llm,
    numerical_descriptors.getD [], categorical_descriptors.getD [], ranking⟩

/-- `get_numerical_columns`: declared numerical columns plus numerical
descriptors (Python's `or []` collapses `None` to the empty list). -/
def DataDefinition.get_numerical_columns (dd : DataDefinition) : List String :=
  dd.numerical_columns.getD [] ++ dd.numerical_descriptors

/-- `get_categorical_columns`. -/
def DataDefinition.get_categorical_columns (dd : DataDefinition) : List String :=
  dd.categorical_columns.getD [] ++ dd.categorical_descriptors

/-- `get_text_columns`. -/
def DataDefinition.get_text_columns (dd : DataDefinition) : List String :=
  dd.text_columns.getD []

/-- `get_datetime_columns`. -/
def DataDefinition.get_datetime_columns (dd : DataDefinition) : List String :=
  dd.datetime_columns.getD []

/-- `get_column_type`: first-match-wins precedence numerical → categorical
→ text → datetime → timestamp → id → Unknown. -/
def DataDefinition.get_column_type (dd : DataDefinition) (column_name : String) :
    ColumnType :=
  if column_name ∈ dd.get_numerical_columns then .Numerical
  else if column_name ∈ dd.get_categorical_columns then .Categorical
  else if column_name ∈ dd.get_text_columns then .Text
  else if column_name ∈ dd.get_datetime_columns then .Datetime
  else if some column_name = dd.timestamp then .Date
  else if some column_name = dd.id_column then .Id
  else .Unknown

/-- `get_classification`: filter the (possibly unset) sequence by name;
no match is `None`, more than one match raises `ValueError`. -/
def DataDefinition.get_classification (dd : DataDefinition)
    (classification_id : String) : Except PyError (Option Classification) :=
  let item_list := (dd.classification.getD []).filter
    (fun x => x.name == classification_id)
  if item_list.length = 0 then .ok none
  else if item_list.length > 1 then .error .valueError
  else .ok item_list.head?

/-- `get_ranking`. -/
def DataDefinition.get_ranking (dd : DataDefinition) (ranking_id : String) :
    Except PyError (Option Recsys) :=
  let item_list := (dd.ranking.getD []).filter (fun x => x.name == ranking_id)
  if item_list.length = 0 then .ok none
  else if item_list.length > 1 then .error .valueError
  else .ok item_list.head?

/-- `get_regression`. -/
def DataDefinition.get_regression (dd : DataDefinition) (regression_id : String) :
    Except PyError (Option Regression) :=
  let item_list := (dd.regression.getD []).filter (fun x => x.name == regression_id)
  if item_list.length = 0 then .ok none
  else if item_list.length > 1 then .error .valueError
  else .ok item_list.head?

/-- A raw cell of a pandas column, restricted to the value kinds the claims
exercise: finite numbers (rationals stand in for Python ints/floats), the
two IEEE infinities, strings, list/tuple-like values, booleans, datetime
values, and a missing marker (None/NaN/NaT). -/
inductive PCell where
  | num (q : ℚ)
  | posInf
  | negInf
  | str (s : String)
  | listlike (i : ℤ)
  | boolean (b : Bool)
  | datetime (t : ℤ)
  | missing
  deriving DecidableEq

/-- True exactly on the `str` cells (Python `isinstance(x, str)`). -/
def PCell.isStr : PCell → Bool
  | .str _ => true
  | _ => false

/-- True exactly on list/tuple-like cells (`isinstance(x, (list, tuple))`). -/
def PCell.isListLike : PCell → Bool
  | .listlike _ => true
  | _ => false

/-- True exactly on the two infinities (`np.isinf`; NaN/missing is not
infinite). -/
def PCell.isInf : PCell → Bool
  | .posInf => true
  | .negInf => true
  | _ => false

/-- A pandas Series: the dtype name (as `Series.dtype.name` returns it,
e.g. `"float64"`, `"int64"`, `"object"`) together with its cells. -/
structure PandasSeries where
  dtype : String
  values : List PCell
  deriving DecidableEq

/-- `Series.dropna()`: the non-missing cells, in order. -/
def PandasSeries.dropna (s : PandasSeries) : List PCell :=
  s.values.filter (fun c => c != PCell.missing)

/-- `Series.count()`: the number of non-missing cells. -/
def PandasSeries.count (s : PandasSeries) : Nat :=
  s.dropna.length

/-- The distinct cells of a list in first-seen order (`seen` accumulates
the cells already emitted). -/
def firstSeenAux (seen : List PCell) : List PCell → List PCell
  | [] => []
  | x :: xs =>
    if x ∈ seen then firstSeenAux seen xs
    else x :: firstSeenAux (x :: seen) xs

/-- The distinct non-missing cells of a series, in first-seen order. -/
def PandasSeries.unique_values (s : PandasSeries) : List PCell :=
  firstSeenAux [] s.dropna

/-- `Series.nunique()`: the number of distinct non-missing cells. -/
def PandasSeries.nunique (s : PandasSeries) : Nat :=
  s.unique_values.length

/-- Python `str.startswith`, applied to dtype names. -/
def strStartsWith (s p : String) : Bool :=
  p.data.isPrefixOf s.data

/-- The integer-cardinality threshold of rule 2 of the inferencer. -/
def INTEGER_CARDINALITY_LIMIT : Nat := 10

/-- `infer_column_type`: the storage-kind decision chain of the source.  In
the `"object"` branch the source reads `without_na.iloc[0]` (and
`.iloc[-1]`) with no emptiness check; on a column with zero non-missing
values that access raises `IndexError`, surfaced here as `indexError`. -/
def infer_column_type (column_data : PandasSeries) : Except PyError ColumnType :=
  if strStartsWith column_data.dtype "float" then .ok .Numerical
  else if strStartsWith column_data.dtype "int" then
    if column_data.nunique ≤ INTEGER_CARDINALITY_LIMIT then .ok .Categorical
    else .ok .Numerical
  else if column_data.dtype = "string" then
    if (column_data.nunique : ℚ) > (column_data.count : ℚ) * (1 / 2) then .ok .Text
    else .ok .Categorical
  else if column_data.dtype = "object" then
    match column_data.dropna.head?, column_data.dropna.getLast? with
    | some first, some last =>
      if first.isStr && last.isStr then
        if (column_data.nunique : ℚ) > (column_data.count : ℚ) * (1 / 2) then .ok .Text
        else .ok .Categorical
      else if first.isListLike && last.isListLike then .ok .List
      else .ok .Unknown
    | _, _ => .error .indexError
  else if column_data.dtype = "bool" ∨ column_data.dtype = "category" then
    .ok .Categorical
  else if strStartsWith column_data.dtype "datetime" then .ok .Datetime
  else .ok .Unknown

/-- A pandas DataFrame: ordered named columns (row-count uniformity is not
needed by any claim and is not enforced). -/
structure PandasDataFrame where
  cols : List (String × PandasSeries)
  deriving DecidableEq

/-- `DataFrame.columns` as a name list. -/
def PandasDataFrame.columns (df : PandasDataFrame) : List String :=
  df.cols.map Prod.fst

/-- The `reserved_fields` list built by `PandasDataset.__init__` (in the
source's append order). -/
def build_reserved_fields (dd : DataDefinition) : List String :=
  dd.timestamp.toList ++ dd.id_column.toList ++
  dd.numerical_columns.getD [] ++ dd.categorical_columns.getD [] ++
  dd.datetime_columns.getD [] ++ dd.text_columns.getD [] ++
  dd.numerical_descriptors ++ dd.categorical_descriptors

/-- The inference loop of `_generate_data_definition`: bucket every
non-reserved column by inferred type (in column order), propagating the
first inference error. -/
def generate_buckets (reserved : List String) :
    List (String × PandasSeries) →
    Except PyError (List String × List String × List String × List String)
  | [] => .ok ([], [], [], [])
  | (name, series) :: rest =>
    if name ∈ reserved then generate_buckets reserved rest
    else
      match infer_column_type series with
      | .error e => .error e
      | .ok t =>
        match generate_buckets reserved rest with
        | .error e => .error e
        | .ok (nu, ca, te, dt) =>
          .ok ((if t = .Numerical then name :: nu else nu),
            (if t = .Categorical then name :: ca else ca),
            (if t = .Text then name :: te else te),
            (if t = .Datetime then name :: dt else dt))

/-- `PandasDataset._generate_data_definition`: run the inference loop, then
build the inferred schema — a single datetime candidate becomes the
inferred timestamp and leaves the datetime set empty; otherwise all
candidates stay in the datetime set and no timestamp is inferred. -/
def _generate_data_definition (data : PandasDataFrame)
    (reserved_fields : List String) : Except PyError DataDefinition :=
  match generate_buckets reserved_fields data.cols with
  | .error e => .error e
  | .ok (numerical, categorical, text, datetime) =>
    .ok { timestamp := if datetime.length = 1 then datetime.head? else none
          numerical_columns := some numerical
          categorical_columns := some categorical
          datetime_columns := some (if datetime.length ≠ 1 then datetime else [])
          text_columns := some text }

/-- The source's first merge block: an unset datetime set is filled with
the singleton of the inferred timestamp when both the user timestamp and
the inferred timestamp exist, else with the inferred datetime set; a set
datetime set is kept. -/
def merge_datetime_columns (dd gen : DataDefinition) : DataDefinition :=
  if dd.datetime_columns = none then
    if dd.timestamp ≠ none ∧ gen.timestamp ≠ none then
      { dd with datetime_columns := some gen.timestamp.toList }
    else
      { dd with datetime_columns := gen.datetime_columns }
  else dd

/-- The source's second merge block: fill an unset numerical set. -/
def merge_numerical_columns (dd gen : DataDefinition) : DataDefinition :=
  if dd.numerical_columns = none then
    { dd with numerical_columns := gen.numerical_columns }
  else dd

/-- The source's third merge block: fill an unset categorical set. -/
def merge_categorical_columns (dd gen : DataDefinition) : DataDefinition :=
  if dd.categorical_columns = none then
    { dd with categorical_columns := gen.categorical_columns }
  else dd

/-- The source's fourth merge block: fill an unset text set. -/
def merge_text_columns (dd gen : DataDefinition) : DataDefinition :=
  if dd.text_columns = none then
    { dd with text_columns := gen.text_columns }
  else dd

/-- The source's fifth merge block: adopt the inferred timestamp when the
user left it unset and inference produced one. -/
def merge_timestamp (dd gen : DataDefinition) : DataDefinition :=
  if dd.timestamp = none ∧ gen.timestamp ≠ none then
    { dd with timestamp := gen.timestamp }
  else dd

/-- The schema-resolution slice of `PandasDataset.__init__`: inference runs
exactly when the user schema is absent or leaves one of the four role sets
unset; the five merge blocks are then applied in the source's order
(datetime, numerical, categorical, text, timestamp), each reading the
state left by the previous one. -/
def resolve_data_definition (data : PandasDataFrame)
    (data_definition : Option DataDefinition) : Except PyError DataDefinition :=
  match data_definition with
  | none => _generate_data_definition data []
  | some dd =>
    if dd.datetime_columns = none ∨ dd.categorical_columns = none ∨
        dd.text_columns = none ∨ dd.numerical_columns = none then
      match _generate_data_definition data (build_reserved_fields dd) with
      | .error e => .error e
      | .ok gen =>
        .ok (merge_timestamp (merge_text_columns (merge_categorical_columns
          (merge_numerical_columns (merge_datetime_columns dd gen) gen) gen)
          gen) gen)
    else .ok dd

/-- The `StatCountValue` dataclass: a count with its share.  Note that the
Python dataclass derives equality but no ordering. -/
structure StatCountValue where
  count : Nat
  share : ℚ
  deriving DecidableEq

/-- The `GeneralColumnStats` dataclass. -/
structure GeneralColumnStats where
  missing_values : StatCountValue
  deriving DecidableEq

/-- The `NumericalColumnStats` dataclass, restricted to the `infinite`
statistic; the IEEE-float aggregates (`max`, `min`, `mean`, `std`, the two
quantiles) are not depended on by any claim and are outside this
embedding. -/
structure NumericalColumnStats where
  infinite : StatCountValue
  deriving DecidableEq

/-- The `LabelStats` dataclass. -/
structure LabelStats where
  count : StatCountValue
  deriving DecidableEq

/-- The `CategoricalColumnStats` dataclass: `label_stats` is a dict from
label (a cell value) to its stats, in insertion order. -/
structure CategoricalColumnStats where
  unique_count : Nat
  label_stats : List (PCell × LabelStats)
  deriving DecidableEq

/-- The loop of the `most_common` property.  After the first iteration has
picked a candidate, every later iteration evaluates
`self.label_stats[most_common].count < value.count` — a `<` between two
`StatCountValue` dataclass instances, which define no ordering — so Python
raises `TypeError` there. -/
def most_common_loop : Option PCell → List (PCell × LabelStats) →
    Except PyError (Option PCell)
  | acc, [] => .ok acc
  | none, (key, _) :: rest => most_common_loop (some key) rest
  | some _, _ :: _ => .error .typeError

/-- The `most_common` property of `CategoricalColumnStats`: run the loop,
then pair the winner with its dict entry. -/
def CategoricalColumnStats.most_common (s : CategoricalColumnStats) :
    Except PyError (Option (PCell × LabelStats)) :=
  match most_common_loop none s.label_stats with
  | .error e => .error e
  | .ok none => .ok none
  | .ok (some mc) =>
    match s.label_stats.lookup mc with
    | some v => .ok (some (mc, v))
    | none => .error .keyError

/-- Stable descending insertion used to model `Series.value_counts()`:
a group goes before the first strictly smaller count, so ties keep
first-seen order. -/
def insertByCountDesc (p : PCell × Nat) : List (PCell × Nat) → List (PCell × Nat)
  | [] => [p]
  | q :: qs => if p.2 > q.2 then p :: q :: qs else q :: insertByCountDesc p qs

/-- `Series.value_counts()`: the distinct non-missing cells with their
occurrence counts, in descending-count order, ties in first-seen order. -/
def PandasSeries.value_counts (s : PandasSeries) : List (PCell × Nat) :=
  ((s.unique_values).map (fun v => (v, s.dropna.count v))).foldl
    (fun acc p => insertByCountDesc p acc) []

/-- `_collect_categorical_stats`: distinct count plus per-label stats built
from `value_counts` (count and count/total share); the label dict keeps
`value_counts` order.  No division happens when the series has no
non-missing values, because the dict comprehension is then empty. -/
def _collect_categorical_stats (data : PandasSeries) : CategoricalColumnStats :=
  let total_count := data.count
  { unique_count := data.nunique
    label_stats := data.value_counts.map
      (fun lc => (lc.1, ⟨⟨lc.2, (lc.2 : ℚ) / (total_count : ℚ)⟩⟩)) }

/-- `_collect_numerical_stats`, restricted to the `infinite` statistic:
`infinite_count` is the number of non-missing cells grouped under
`np.isinf(data) == True`, and the share divides it by `data.count()` with
no guard — on a column with zero non-missing values the source evaluates
`0 / 0`, which fails (surfaced here as `zeroDivisionError`; under numpy
integer scalars the division instead yields NaN — either way it does not
produce a number). -/
def _collect_numerical_stats (data : PandasSeries) :
    Except PyError NumericalColumnStats :=
  let infinite_count := (data.values.filter PCell.isInf).length
  if data.count = 0 then .error .zeroDivisionError
  else .ok ⟨⟨infinite_count, (infinite_count : ℚ) / (data.count : ℚ)⟩⟩

/-- The `ColumnStats` dataclass: general stats always, numerical stats iff
the type is Numerical, categorical stats iff Categorical. -/
structure ColumnStats where
  general_stats : GeneralColumnStats
  numerical_stats : Option NumericalColumnStats
  categorical_stats : Option CategoricalColumnStats
  deriving DecidableEq

/-- `PandasDataset._collect_stats`: dispatch on the semantic type; the
general (missing-value) stats are the source's constant `(0, 0)`
placeholder. -/
def _collect_stats (column_type : ColumnType) (data : PandasSeries) :
    Except PyError ColumnStats :=
  if column_type = .Numerical then
    match _collect_numerical_stats data with
    | .error e => .error e
    | .ok ns => .ok ⟨⟨⟨0, 0⟩⟩, some ns, none⟩
  else if column_type = .Categorical then
    .ok ⟨⟨⟨0, 0⟩⟩, none, some (_collect_categorical_stats data)⟩
  else .ok ⟨⟨⟨0, 0⟩⟩, none, none⟩

/-- The `DatasetStats` dataclass. -/
structure DatasetStats where
  row_count : Nat
  column_count : Nat
  column_stats : List (String × ColumnStats)
  deriving DecidableEq

/-- The `DatasetColumn` pair: a semantic type tag with the column data. -/
structure DatasetColumn where
  type : ColumnType
  data : PandasSeries
  deriving DecidableEq

/-- The mutable state of a `PandasDataset`: the owned table, the resolved
schema and the aggregated stats. -/
structure PandasDatasetState where
  data : List (String × PandasSeries)
  data_definition : DataDefinition
  dataset_stats : DatasetStats
  deriving DecidableEq

/-- Assignment into a Python dict (or a DataFrame's column set) keyed by
strings: replace in place if the key exists (keeping its position), else
append. -/
def dictAssign {α : Type} (m : List (String × α)) (k : String) (v : α) :
    List (String × α) :=
  if m.any (fun p => p.1 == k) then
    m.map (fun p => if p.1 = k then (k, v) else p)
  else m ++ [(k, v)]

/-- `PandasDataset.add_column`: bump the column count, compute and insert
stats for the new column only, append the column data, and register the
name in the numerical- or categorical-descriptor set according to the
semantic type.  A stats-collection failure is surfaced as the error. -/
def add_column (st : PandasDatasetState) (key : String) (data : DatasetColumn) :
    Except PyError PandasDatasetState :=
  match _collect_stats data.type data.data with
  | .error e => .error e
  | .ok cs =>
    let dd0 := st.data_definition
    let dd1 :=
      if data.type = .Numerical then
        { dd0 with numerical_descriptors := dd0.numerical_descriptors ++ [key] }
      else dd0
    let dd2 :=
      if data.type = .Categorical then
        { dd1 with categorical_descriptors := dd1.categorical_descriptors ++ [key] }
      else dd1
    .ok { data := dictAssign st.data key data.data
          data_definition := dd2
          dataset_stats :=
            { row_count := st.dataset_stats.row_count
              column_count := st.dataset_stats.column_count + 1
              column_stats := dictAssign st.dataset_stats.column_stats key cs } }

/-- Decimal rendering of a natural number (the `f"{alias}_{index}"`
formatting of the source), by fuel-indexed recursion; `natDecimal` always
supplies enough fuel. -/
def natDecimalAux : Nat → Nat → List Char
  | 0, _ => []
  | fuel + 1, n =>
    if n < 10 then [['0', '1', '2', '3', '4', '5', '6', '7', '8', '9'].getD n '0']
    else natDecimalAux fuel (n / 10) ++
      [['0', '1', '2', '3', '4', '5', '6', '7', '8', '9'].getD (n % 10) '0']

/-- Decimal string of a natural number. -/
def natDecimal (n : Nat) : String := String.mk (natDecimalAux (n + 1) n)

/-- The candidate name `f"{alias}_{index}"`. -/
def suffixed (aliasName : String) (index : Nat) : String :=
  aliasName ++ "_" ++ natDecimal index

/-- The `while key in columns` loop of `_determine_desccriptor_column_name`,
trying `alias_index`, `alias_index+1`, … until a free name is found; the
fuel bounds the number of candidates tried. -/
def determine_loop (aliasName : String) (columns : List String) :
    Nat → Nat → String
  | index, 0 => suffixed aliasName index
  | index, fuel + 1 =>
    let key := suffixed aliasName index
    if key ∈ columns then determine_loop aliasName columns (index + 1) fuel
    else key

/-- `_determine_desccriptor_column_name` (source spelling kept): resolve a
proposed name against the existing column names, appending the first free
`_1`, `_2`, … suffix.  The source's unbounded `while` loop always
terminates because among the `columns.length + 1` pairwise-distinct
candidates `alias_1`, `alias_2`, … at least one is absent from `columns`;
the fuel below is exactly that bound, so the fuel-exhausted case is never
reached. -/
def _determine_desccriptor_column_name (aliasName : String)
    (columns : List String) : String :=
  if aliasName ∈ columns then
    determine_loop aliasName columns 1 (columns.length + 1)
  else aliasName

/-- Result of the abstract `Descriptor.generate_data` capability: a single
column or a dict of display-name to column. -/
inductive GeneratedData where
  | single (c : DatasetColumn)
  | multi (cs : List (String × DatasetColumn))

/-- The descriptor protocol: an alias (the Python `alias` field) plus the
abstract `generate_data` capability, a function of the read-only dataset
state. -/
structure PDescriptor where
  aliasName : String
  generate_data : PandasDatasetState → GeneratedData

/-- The per-column loop of `add_descriptor`: each proposed column is
renamed against the current (already mutated) column names and appended. -/
def add_descriptor_loop : PandasDatasetState → List (String × DatasetColumn) →
    Except PyError PandasDatasetState
  | st, [] => .ok st
  | st, (col, value) :: rest =>
    match add_column st
        (_determine_desccriptor_column_name col (st.data.map Prod.fst)) value with
    | .error e => .error e
    | .ok st2 => add_descriptor_loop st2 rest

/-- `PandasDataset.add_descriptor`: invoke `generate_data`, normalize a
single-column result under the descriptor's alias, then append every
proposed column in order. -/
def add_descriptor (st : PandasDatasetState) (descriptor : PDescriptor) :
    Except PyError PandasDatasetState :=
  let new_columns :=
    match descriptor.generate_data st with
    | .single c => [(descriptor.aliasName, c)]
    | .multi cs => cs
  add_descriptor_loop st new_columns

/-- `Dataset.add_descriptors`: apply the descriptors strictly in order,
each observing the state left by the previous one. -/
def add_descriptors : PandasDatasetState → List PDescriptor →
    Except PyError PandasDatasetState
  | st, [] => .ok st
  | st, d :: ds =>
    match add_descriptor st d with
    | .error e => .error e
    | .ok st2 => add_descriptors st2 ds

/-- The stats loop of `PandasDataset.__init__`: collect stats for every
table column against the resolved schema, building the stats dict in
column order. -/
def collect_all_stats (dd : DataDefinition) :
    List (String × PandasSeries) → Except PyError (List (String × ColumnStats))
  | [] => .ok []
  | (name, series) :: rest =>
    match _collect_stats (dd.get_column_type name) series with
    | .error e => .error e
    | .ok cs =>
      match collect_all_stats dd rest with
      | .error e => .error e
      | .ok m => .ok ((name, cs) :: m)

/-- `PandasDataset.__init__` end to end: resolve the schema, then run the
full statistics pass (row count = the table's row count, read off the
first column; column count = number of columns). -/
def pandas_dataset_init (data : PandasDataFrame)
    (data_definition : Option DataDefinition) :
    Except PyError PandasDatasetState :=
  match resolve_data_definition data data_definition with
  | .error e => .error e
  | .ok dd =>
    match collect_all_stats dd data.cols with
    | .error e => .error e
    | .ok column_stats =>
      .ok { data := data.cols
            data_definition := dd
            dataset_stats :=
              { row_count := ((data.cols.head?.map (fun c => c.2.values.length)).getD 0)
                column_count := data.cols.length
                column_stats := column_stats } }

/-- Specification-side characterization (in the claim's words) of the
inference bucketing: the names of the non-reserved columns whose inferred
type is `t`, in column order.  It is compared against the source-shaped
`generate_buckets` fold. -/
def spec_inferred_bucket (cols : List (String × PandasSeries))
    (reserved : List String) (t : ColumnType) : List String :=
  cols.filterMap (fun c =>
    if c.1 ∉ reserved ∧ infer_column_type c.2 = .ok t then some c.1 else none)

/-- Decimal value of a digit string (the left inverse used to prove
`natDecimal` injective). -/
def decimalVal (cs : List Char) : Nat :=
  cs.foldl (fun acc c => acc * 10 + (c.toNat - 48)) 0

/-- A categorical column with the labels A and B tied at three occurrences
each, A encountered first. -/
def tiedLabelsColumn : PandasSeries :=
  ⟨"object", [.str "A", .str "A", .str "A", .str "B", .str "B", .str "B"]⟩

/-- A numerical column with two infinite values among eight non-missing
ones (plus one missing cell). -/
def twoInfOfEight : PandasSeries :=
  ⟨"float64",
    [.num 1, .num 2, .posInf, .num 3, .negInf, .num 4, .num 5, .num 6, .missing]⟩

/-- A numerical column with zero non-missing values. -/
def allMissingNumerical : PandasSeries := ⟨"float64", [.missing, .missing]⟩

/-- A classification spec used twice under the same name. -/
def dupClassification : Classification :=
  .binary ⟨"default", "t", some "p", none, .int 1, none⟩

/-- Counterexample table: a reserved timestamp column plus exactly one
datetime candidate. -/
def cexDF : PandasDataFrame :=
  ⟨[("ts", ⟨"int64", [.num 1, .num 2]⟩),
    ("d", ⟨"datetime64[ns]", [.datetime 1, .datetime 2]⟩)]⟩

/-- Counterexample user schema: timestamp set, datetime set left unset, the
other three role sets explicitly empty. -/
def cexUserDD : DataDefinition :=
  { timestamp := some "ts", numerical_columns := some [],
    categorical_columns := some [], text_columns := some [] }

/-- Witness table for the amended schema-resolution claim: one small
integer column. -/
def c3wDF : PandasDataFrame := ⟨[("x", ⟨"int64", [.num 1, .num 2]⟩)]⟩

/-- Witness user schema: everything unset. -/
def c3wDD : DataDefinition := {}

/-- The schema inference generates for `c3wDF` with no reserved names. -/
def c3wGen : DataDefinition :=
  { timestamp := none, numerical_columns := some [],
    categorical_columns := some ["x"], datetime_columns := some [],
    text_columns := some [] }

/-- The schema resolution returns for `c3wDF` under `c3wDD`. -/
def c3wRes : DataDefinition :=
  { timestamp := none, numerical_columns := some [],
    categorical_columns := some ["x"], datetime_columns := some [],
    text_columns := some [] }

/-- A two-column table state with no stats entries, used to run the
descriptor pipeline. -/
def scoreBaseState : PandasDatasetState :=
  { data := [("a", ⟨"int64", [.num 1]⟩), ("b", ⟨"int64", [.num 2]⟩)]
    data_definition := {}
    dataset_stats := { row_count := 1, column_count := 2, column_stats := [] } }

/-- A derived categorical column. -/
def scoreColumn : DatasetColumn := ⟨.Categorical, ⟨"object", [.str "x"]⟩⟩

/-- A descriptor proposing the alias "score" with a single derived
column. -/
def scoreDescriptor : PDescriptor := ⟨"score", fun _ => .single scoreColumn⟩

/-- A one-column dataset state used to exercise `add_column`. -/
def c7State : PandasDatasetState :=
  { data := [("a", ⟨"int64", [.num 1]⟩)]
    data_definition := {}
    dataset_stats :=
      { row_count := 1, column_count := 1
        column_stats := [("a", ⟨⟨⟨0, 0⟩⟩, none, none⟩)] } }

/-- A derived text column appended to `c7State`. -/
def c7Column : DatasetColumn := ⟨.Text, ⟨"object", [.str "hello"]⟩⟩

/-- The stats `_collect_stats` computes for `c7Column`. -/
def c7Stats : ColumnStats := ⟨⟨⟨0, 0⟩⟩, none, none⟩

/-- The state `add_column` produces from `c7State`, `"f"` and `c7Column`. -/
def c7Result : PandasDatasetState :=
  { data := [("a", ⟨"int64", [.num 1]⟩), ("f", ⟨"object", [.str "hello"]⟩)]
    data_definition := {}
    dataset_stats :=
      { row_count := 1, column_count := 2
        column_stats := [("a", ⟨⟨⟨0, 0⟩⟩, none, none⟩), ("f", c7Stats)] } }

/-!
Theorems.  Each claim of the specification is settled by exactly one named
theorem below (plus, where the theorem carries hypotheses, a witness
instantiating it on concrete data).
-/

/-- C1 (code evaluated at the failing input): on a categorical column with
the tied labels A:3 and B:3 (A first), the derived `most_common` raises
`TypeError` instead of reporting A — the source compares the two
`StatCountValue` dataclass instances with `<`, which dataclasses do not
order.  The first two conjuncts pin down the failing input: both labels
are present, in first-seen order, with equal counts of 3. -/
theorem most_common_typeerror_on_tied_labels :
    (_collect_categorical_stats tiedLabelsColumn).label_stats.map Prod.fst =
      [.str "A", .str "B"] ∧
    (_collect_categorical_stats tiedLabelsColumn).label_stats.map
      (fun p => p.2.count.count) = [3, 3] ∧
    (_collect_categorical_stats tiedLabelsColumn).most_common =
      .error .typeError :=
  ⟨rfl, rfl, rfl⟩

/-- C2 (code evaluated at the failing input): the infinite-value statistic
of a numerical column with 2 infinite among 8 non-missing values is
count 2, share 1/4 = 0.25; but on a column with zero non-missing values
the unguarded `infinite_count / data.count()` division fails instead of
yielding share 0 as the claim states. -/
theorem infinite_stats_eval :
    _collect_numerical_stats twoInfOfEight = .ok ⟨⟨2, 1 / 4⟩⟩ ∧
    _collect_numerical_stats allMissingNumerical = .error .zeroDivisionError := by
  constructor
  · have h : _collect_numerical_stats twoInfOfEight =
        .ok ⟨⟨2, (2 : ℚ) / (8 : ℚ)⟩⟩ := rfl
    rw [h]
    have h2 : (2 : ℚ) / 8 = 1 / 4 := by norm_num
    rw [h2]
  · rfl

/-- C8: with every field omitted, `BinaryClassification` builds the
conventional default spec (target "target", probability column
"prediction", positive label 1); with some but not all required fields —
a target without a prediction source, or any prediction source
(labels or probas) without a target — it raises the configuration
`ValueError`. -/
theorem binary_classification_defaults_and_validation :
    BinaryClassification.init "default" none none none none none =
      .ok ⟨"default", "target", none, some "prediction", .int 1, none⟩ ∧
    (∀ t : String,
      BinaryClassification.init "default" (some t) none none none none =
        .error .valueError) ∧
    (∀ (name : String) (target : Option String)
        (prediction_labels prediction_probas : Option String)
        (pos_label : Option Label) (labels : Option (List (Label × String))),
      ¬(target = none ∧ prediction_labels = none ∧ prediction_probas = none ∧
        pos_label = none ∧ labels = none) →
      (target = none ∨ (prediction_labels = none ∧ prediction_probas = none)) →
      BinaryClassification.init name target prediction_labels prediction_probas
        pos_label labels = .error .valueError) := by
  refine ⟨rfl, fun t => rfl, ?_⟩
  intro name target prediction_labels prediction_probas pos_label labels hsome hpart
  unfold BinaryClassification.init
  rw [if_neg hsome]
  rcases hpart with h | h
  · subst h
    rfl
  · cases target with
    | none => rfl
    | some t => simp [h.1, h.2]

/-- Closed witness for C8: the general partial-specification branch applied
to the concrete "only a prediction-probas column" input. -/
theorem binary_classification_defaults_and_validation_witness :
    BinaryClassification.init "default" none none (some "p") none none =
      .error .valueError :=
  binary_classification_defaults_and_validation.2.2 "default" none none
    (some "p") none none (by simp) (by simp)

/-- C9: duplicate task names are a lookup-time error, not a construction
one.  The three getters raise `ValueError` whenever more than one spec of
the corresponding sequence matches the lookup name, while the validation-
free constructor accepts a sequence with two specs of the same name (and
the subsequent lookup on that same object then raises). -/
theorem duplicate_name_lookup_raises :
    (∀ (dd : DataDefinition) (lookup_id : String),
      1 < ((dd.classification.getD []).filter
        (fun x => x.name == lookup_id)).length →
      dd.get_classification lookup_id = .error .valueError) ∧
    (∀ (dd : DataDefinition) (lookup_id : String),
      1 < ((dd.ranking.getD []).filter (fun x => x.name == lookup_id)).length →
      dd.get_ranking lookup_id = .error .valueError) ∧
    (∀ (dd : DataDefinition) (lookup_id : String),
      1 < ((dd.regression.getD []).filter
        (fun x => x.name == lookup_id)).length →
      dd.get_regression lookup_id = .error .valueError) ∧
    (DataDefinition.init none none none none none none
        (some [dupClassification, dupClassification]) none none none none
        none).classification = some [dupClassification, dupClassification] ∧
    (DataDefinition.init none none none none none none
        (some [dupClassification, dupClassification]) none none none none
        none).get_classification "default" = .error .valueError := by
  refine ⟨?_, ?_, ?_, rfl, rfl⟩
  · intro dd lookup_id h
    have h0 : ¬ ((dd.classification.getD []).filter
        (fun x => x.name == lookup_id)).length = 0 := by omega
    simp [DataDefinition.get_classification, h0, h]
  · intro dd lookup_id h
    have h0 : ¬ ((dd.ranking.getD []).filter
        (fun x => x.name == lookup_id)).length = 0 := by omega
    simp [DataDefinition.get_ranking, h0, h]
  · intro dd lookup_id h
    have h0 : ¬ ((dd.regression.getD []).filter
        (fun x => x.name == lookup_id)).length = 0 := by omega
    simp [DataDefinition.get_regression, h0, h]

/-- Closed witness for C9: the duplicate-classification lookup raises on a
concretely constructed schema. -/
theorem duplicate_name_lookup_raises_witness :
    (DataDefinition.init none none none none none none
        (some [dupClassification, dupClassification]) none none none none
        none).get_classification "default" = .error .valueError :=
  duplicate_name_lookup_raises.1
    (DataDefinition.init none none none none none none
      (some [dupClassification, dupClassification]) none none none none none)
    "default" (by decide)

/-- C10: a lookup name matching no spec of the corresponding sequence
(including when the sequence is unset, where the source's `or []` makes
the filter empty) returns None rather than raising, for all three
named-task getters. -/
theorem name_lookup_no_match_returns_none :
    (∀ (dd : DataDefinition) (lookup_id : String),
      ((dd.classification.getD []).filter
        (fun x => x.name == lookup_id)).length = 0 →
      dd.get_classification lookup_id = .ok none) ∧
    (∀ (dd : DataDefinition) (lookup_id : String),
      ((dd.ranking.getD []).filter (fun x => x.name == lookup_id)).length = 0 →
      dd.get_ranking lookup_id = .ok none) ∧
    (∀ (dd : DataDefinition) (lookup_id : String),
      ((dd.regression.getD []).filter
        (fun x => x.name == lookup_id)).length = 0 →
      dd.get_regression lookup_id = .ok none) := by
  refine ⟨?_, ?_, ?_⟩
  · intro dd lookup_id h
    simp [DataDefinition.get_classification, h]
  · intro dd lookup_id h
    simp [DataDefinition.get_ranking, h]
  · intro dd lookup_id h
    simp [DataDefinition.get_regression, h]

/-- Closed witness for C10: on a schema with all three sequences unset,
every getter returns None for an arbitrary concrete name. -/
theorem name_lookup_no_match_returns_none_witness :
    ({} : DataDefinition).get_classification "absent" = .ok none ∧
    ({} : DataDefinition).get_ranking "absent" = .ok none ∧
    ({} : DataDefinition).get_regression "absent" = .ok none :=
  ⟨name_lookup_no_match_returns_none.1 {} "absent" (by decide),
   name_lookup_no_match_returns_none.2.1 {} "absent" (by decide),
   name_lookup_no_match_returns_none.2.2 {} "absent" (by decide)⟩

/-- C4: when the user schema sets all four role sets explicitly (possibly
to empty sequences), schema resolution at construction is the identity:
the resolved schema equals the supplied one and the inference branch never
runs. -/
theorem schema_resolution_identity (data : PandasDataFrame)
    (dd : DataDefinition) (h1 : dd.numerical_columns ≠ none)
    (h2 : dd.categorical_columns ≠ none) (h3 : dd.text_columns ≠ none)
    (h4 : dd.datetime_columns ≠ none) :
    resolve_data_definition data (some dd) = .ok dd := by
  have hcond : ¬(dd.datetime_columns = none ∨ dd.categorical_columns = none ∨
      dd.text_columns = none ∨ dd.numerical_columns = none) := by
    push_neg
    exact ⟨h4, h2, h3, h1⟩
  simp only [resolve_data_definition]
  rw [if_neg hcond]

/-- Closed witness for C4: a fully specified schema survives resolution
unchanged over a table whose column it does not even mention. -/
theorem schema_resolution_identity_witness :
    resolve_data_definition (⟨[("x", ⟨"int64", [.num 1]⟩)]⟩ : PandasDataFrame)
      (some { numerical_columns := some ["y"], categorical_columns := some [],
              text_columns := some [], datetime_columns := some [] }) =
      .ok { numerical_columns := some ["y"], categorical_columns := some [],
            text_columns := some [], datetime_columns := some [] } :=
  schema_resolution_identity _ _ (by decide) (by decide) (by decide) (by decide)

/-- C5: on a generic/object-storage column all of whose values are missing,
type inference fails with the inference error: `dropna()` is empty, so the
source's read of its first element is exactly the error condition. -/
theorem infer_object_all_missing_errors (s : PandasSeries)
    (hdtype : s.dtype = "object")
    (hmiss : ∀ c ∈ s.values, c = PCell.missing) :
    infer_column_type s = .error .indexError := by
  have hdrop : s.dropna = [] := by
    simp only [PandasSeries.dropna]
    apply List.filter_eq_nil_iff.mpr
    intro c hc
    simp [hmiss c hc]
  unfold infer_column_type
  rw [hdtype, hdrop]
  simp [show strStartsWith "object" "float" = false from rfl,
    show strStartsWith "object" "int" = false from rfl]

/-- Closed witness for C5: a two-cell all-missing object column fails
inference with the index error. -/
theorem infer_object_all_missing_errors_witness :
    infer_column_type ⟨"object", [.missing, .missing]⟩ = .error .indexError :=
  infer_object_all_missing_errors ⟨"object", [.missing, .missing]⟩ rfl
    (by decide)

/-- Lookup distributes over list append, preferring the left list. -/
theorem lookup_append {α : Type} (m l : List (String × α)) (k : String) :
    (m ++ l).lookup k =
      (match m.lookup k with
        | some v => some v
        | none => l.lookup k) := by
  induction m with
  | nil => simp [List.lookup]
  | cons p rest ih =>
    obtain ⟨k1, v1⟩ := p
    by_cases h : k = k1
    · subst h
      simp [List.lookup]
    · have hb : (k == k1) = false := beq_eq_false_iff_ne.mpr h
      simp [List.lookup, hb, ih]

/-- A key absent from every pair of the dict looks up to nothing. -/
theorem lookup_eq_none_of_not_any {α : Type} (m : List (String × α)) (k : String)
    (h : m.any (fun p => p.1 == k) = false) : m.lookup k = none := by
  induction m with
  | nil => rfl
  | cons p rest ih =>
    obtain ⟨k1, v1⟩ := p
    simp only [List.any_cons, Bool.or_eq_false_iff, beq_eq_false_iff_ne] at h
    have hb : (k == k1) = false :=
      beq_eq_false_iff_ne.mpr (fun hh => h.1 hh.symm)
    simp [List.lookup, hb, ih (by simpa [beq_eq_false_iff_ne] using h.2)]

/-- Lookup on a cons cell, written as an if on the keys. -/
theorem lookup_cons_eq {α : Type} (a : String) (b : α) (l : List (String × α))
    (q : String) :
    List.lookup q ((a, b) :: l) = if q = a then some b else List.lookup q l := by
  by_cases h : q = a
  · subst h
    simp [List.lookup]
  · have hb : (q == a) = false := beq_eq_false_iff_ne.mpr h
    simp [List.lookup, hb, h]

/-- Replacement-style assignment keeps the looked-up value of every other
key. -/
theorem lookup_map_assign_other {α : Type} (m : List (String × α))
    (k k2 : String) (v : α) (h : k2 ≠ k) :
    (m.map (fun p => if p.1 = k then (k, v) else p)).lookup k2 =
      m.lookup k2 := by
  induction m with
  | nil => rfl
  | cons p rest ih =>
    obtain ⟨k1, v1⟩ := p
    simp only [List.map_cons]
    by_cases hp : k1 = k
    · rw [if_pos hp, lookup_cons_eq, lookup_cons_eq]
      have h2 : k2 ≠ k1 := fun hh => h (hh.trans hp)
      rw [if_neg h, if_neg h2]
      exact ih
    · rw [if_neg hp, lookup_cons_eq, lookup_cons_eq]
      by_cases hk : k2 = k1
      · rw [if_pos hk, if_pos hk]
      · rw [if_neg hk, if_neg hk]
        exact ih

/-- Replacement-style assignment makes the assigned key look up to the new
value, provided the key occurs. -/
theorem lookup_map_assign_self {α : Type} (m : List (String × α))
    (k : String) (v : α) (hany : m.any (fun p => p.1 == k) = true) :
    (m.map (fun p => if p.1 = k then (k, v) else p)).lookup k = some v := by
  induction m with
  | nil => simp at hany
  | cons p rest ih =>
    obtain ⟨k1, v1⟩ := p
    simp only [List.map_cons]
    by_cases hp : k1 = k
    · rw [if_pos hp, lookup_cons_eq, if_pos rfl]
    · rw [if_neg hp, lookup_cons_eq]
      have hk : k ≠ k1 := fun hh => hp hh.symm
      rw [if_neg hk]
      have hb1 : (k1 == k) = false := beq_eq_false_iff_ne.mpr hp
      exact ih (by simpa [hb1] using hany)

/-- `dictAssign` makes the assigned key look up to the assigned value. -/
theorem dictAssign_lookup_self {α : Type} (m : List (String × α)) (k : String)
    (v : α) : (dictAssign m k v).lookup k = some v := by
  unfold dictAssign
  by_cases hany : m.any (fun p => p.1 == k) = true
  · rw [if_pos hany]
    exact lookup_map_assign_self m k v hany
  · rw [if_neg hany]
    rw [lookup_append]
    have hfalse : m.any (fun p => p.1 == k) = false := by
      rwa [Bool.not_eq_true] at hany
    rw [lookup_eq_none_of_not_any m k hfalse]
    simp [List.lookup]

/-- `dictAssign` leaves the looked-up value of every other key unchanged. -/
theorem dictAssign_lookup_other {α : Type} (m : List (String × α))
    (k k2 : String) (v : α) (h : k2 ≠ k) :
    (dictAssign m k v).lookup k2 = m.lookup k2 := by
  unfold dictAssign
  by_cases hany : m.any (fun p => p.1 == k) = true
  · rw [if_pos hany]
    exact lookup_map_assign_other m k k2 v h
  · rw [if_neg hany]
    rw [lookup_append]
    cases hm : m.lookup k2 with
    | some v2 => rfl
    | none =>
      have hb : (k2 == k) = false := beq_eq_false_iff_ne.mpr h
      simp [List.lookup, hb]

/-- `dictAssign` with a fresh key is a plain append. -/
theorem dictAssign_of_not_mem {α : Type} (m : List (String × α)) (k : String)
    (v : α) (h : k ∉ m.map Prod.fst) : dictAssign m k v = m ++ [(k, v)] := by
  unfold dictAssign
  rw [if_neg]
  intro hany
  rw [List.any_eq_true] at hany
  obtain ⟨p, hp, hpk⟩ := hany
  exact h (List.mem_map.mpr ⟨p, hp, by simpa using hpk⟩)

/-- C7: appending one derived column is incremental — the column count goes
up by exactly one, stats are computed and inserted for the new column only
(every other stats entry and the row count are untouched), the new name is
appended to the numerical-descriptor set exactly when the column is
Numerical and to the categorical-descriptor set exactly when Categorical
(and to neither for any other type, the four declared role sets and the
timestamp also being untouched), and the column data itself is appended to
the table. -/
theorem add_column_incremental (st : PandasDatasetState) (key : String)
    (column : DatasetColumn) (cs : ColumnStats) (st2 : PandasDatasetState)
    (hcs : _collect_stats column.type column.data = .ok cs)
    (hadd : add_column st key column = .ok st2) :
    st2.dataset_stats.column_count = st.dataset_stats.column_count + 1 ∧
    st2.dataset_stats.row_count = st.dataset_stats.row_count ∧
    st2.dataset_stats.column_stats.lookup key = some cs ∧
    (∀ k, k ≠ key → st2.dataset_stats.column_stats.lookup k =
      st.dataset_stats.column_stats.lookup k) ∧
    st2.data_definition.numerical_descriptors =
      st.data_definition.numerical_descriptors ++
        (if column.type = .Numerical then [key] else []) ∧
    st2.data_definition.categorical_descriptors =
      st.data_definition.categorical_descriptors ++
        (if column.type = .Categorical then [key] else []) ∧
    st2.data_definition.numerical_columns =
      st.data_definition.numerical_columns ∧
    st2.data_definition.categorical_columns =
      st.data_definition.categorical_columns ∧
    st2.data_definition.text_columns = st.data_definition.text_columns ∧
    st2.data_definition.datetime_columns =
      st.data_definition.datetime_columns ∧
    st2.data_definition.timestamp = st.data_definition.timestamp ∧
    (key ∉ st.data.map Prod.fst →
      st2.data = st.data ++ [(key, column.data)]) := by
  unfold add_column at hadd
  rw [hcs] at hadd
  injection hadd with hst2
  subst hst2
  refine ⟨rfl, rfl, dictAssign_lookup_self _ _ _,
    fun k hk => dictAssign_lookup_other _ _ _ _ hk, ?_, ?_, ?_, ?_, ?_, ?_, ?_,
    fun hfresh => by simp [dictAssign_of_not_mem _ _ _ hfresh]⟩ <;>
    by_cases hN : column.type = .Numerical <;>
    by_cases hC : column.type = .Categorical <;>
    simp_all

/-- Closed witness for C7: appending a text column to a one-column dataset
bumps the column count to two, inserts the new stats entry under the new
name, and leaves the pre-existing entry unchanged. -/
theorem add_column_incremental_witness :
    c7Result.dataset_stats.column_count =
      c7State.dataset_stats.column_count + 1 ∧
    c7Result.dataset_stats.column_stats.lookup "f" = some c7Stats ∧
    c7Result.dataset_stats.column_stats.lookup "a" =
      c7State.dataset_stats.column_stats.lookup "a" :=
  ⟨(add_column_incremental c7State "f" c7Column c7Stats c7Result rfl rfl).1,
   (add_column_incremental c7State "f" c7Column c7Stats c7Result rfl
      rfl).2.2.1,
   (add_column_incremental c7State "f" c7Column c7Stats c7Result rfl
      rfl).2.2.2.1 "a" (by decide)⟩

/-- Field-level description of the datetime merge block. -/
theorem merge_datetime_columns_fields (dd gen : DataDefinition) :
    (merge_datetime_columns dd gen).datetime_columns =
      (if dd.datetime_columns = none then
        (if dd.timestamp ≠ none ∧ gen.timestamp ≠ none then
          some gen.timestamp.toList
         else gen.datetime_columns)
       else dd.datetime_columns) ∧
    (merge_datetime_columns dd gen).numerical_columns =
      dd.numerical_columns ∧
    (merge_datetime_columns dd gen).categorical_columns =
      dd.categorical_columns ∧
    (merge_datetime_columns dd gen).text_columns = dd.text_columns ∧
    (merge_datetime_columns dd gen).timestamp = dd.timestamp := by
  unfold merge_datetime_columns
  refine ⟨?_, ?_, ?_, ?_, ?_⟩ <;> split_ifs <;> rfl

/-- Field-level description of the numerical merge block. -/
theorem merge_numerical_columns_fields (dd gen : DataDefinition) :
    (merge_numerical_columns dd gen).numerical_columns =
      (if dd.numerical_columns = none then gen.numerical_columns
       else dd.numerical_columns) ∧
    (merge_numerical_columns dd gen).categorical_columns =
      dd.categorical_columns ∧
    (merge_numerical_columns dd gen).text_columns = dd.text_columns ∧
    (merge_numerical_columns dd gen).datetime_columns =
      dd.datetime_columns ∧
    (merge_numerical_columns dd gen).timestamp = dd.timestamp := by
  unfold merge_numerical_columns
  refine ⟨?_, ?_, ?_, ?_, ?_⟩ <;> split_ifs <;> rfl

/-- Field-level description of the categorical merge block. -/
theorem merge_categorical_columns_fields (dd gen : DataDefinition) :
    (merge_categorical_columns dd gen).categorical_columns =
      (if dd.categorical_columns = none then gen.categorical_columns
       else dd.categorical_columns) ∧
    (merge_categorical_columns dd gen).numerical_columns =
      dd.numerical_columns ∧
    (merge_categorical_columns dd gen).text_columns = dd.text_columns ∧
    (merge_categorical_columns dd gen).datetime_columns =
      dd.datetime_columns ∧
    (merge_categorical_columns dd gen).timestamp = dd.timestamp := by
  unfold merge_categorical_columns
  refine ⟨?_, ?_, ?_, ?_, ?_⟩ <;> split_ifs <;> rfl

/-- Field-level description of the text merge block. -/
theorem merge_text_columns_fields (dd gen : DataDefinition) :
    (merge_text_columns dd gen).text_columns =
      (if dd.text_columns = none then gen.text_columns else dd.text_columns) ∧
    (merge_text_columns dd gen).numerical_columns = dd.numerical_columns ∧
    (merge_text_columns dd gen).categorical_columns =
      dd.categorical_columns ∧
    (merge_text_columns dd gen).datetime_columns = dd.datetime_columns ∧
    (merge_text_columns dd gen).timestamp = dd.timestamp := by
  unfold merge_text_columns
  refine ⟨?_, ?_, ?_, ?_, ?_⟩ <;> split_ifs <;> rfl

/-- Field-level description of the timestamp merge block: the guarded
adoption is extensionally plain adoption-when-unset, since when inference
produced no timestamp the kept `None` equals the inferred `None`. -/
theorem merge_timestamp_fields (dd gen : DataDefinition) :
    (merge_timestamp dd gen).timestamp =
      (if dd.timestamp = none then gen.timestamp else dd.timestamp) ∧
    (merge_timestamp dd gen).numerical_columns = dd.numerical_columns ∧
    (merge_timestamp dd gen).categorical_columns = dd.categorical_columns ∧
    (merge_timestamp dd gen).text_columns = dd.text_columns ∧
    (merge_timestamp dd gen).datetime_columns = dd.datetime_columns := by
  unfold merge_timestamp
  refine ⟨?_, ?_, ?_, ?_, ?_⟩
  · by_cases hA : dd.timestamp = none ∧ gen.timestamp ≠ none
    · by_cases hB : dd.timestamp = none
      · simp [hA, hB]
      · exact absurd hA.1 hB
    · by_cases hB : dd.timestamp = none
      · have hg : gen.timestamp = none := by
          by_contra hgg
          exact hA ⟨hB, hgg⟩
        simp [hA, hB, hg]
      · simp [hA, hB]
  all_goals split_ifs <;> rfl

/-- The source-shaped bucketing fold agrees with the claim-shaped
`spec_inferred_bucket` characterization on every successful run. -/
theorem generate_buckets_eq (reserved : List String) :
    ∀ (cols : List (String × PandasSeries)) (nu ca te dt : List String),
    generate_buckets reserved cols = .ok (nu, ca, te, dt) →
    nu = spec_inferred_bucket cols reserved .Numerical ∧
    ca = spec_inferred_bucket cols reserved .Categorical ∧
    te = spec_inferred_bucket cols reserved .Text ∧
    dt = spec_inferred_bucket cols reserved .Datetime := by
  intro cols
  induction cols with
  | nil =>
    intro nu ca te dt h
    simp only [generate_buckets, Except.ok.injEq, Prod.mk.injEq] at h
    obtain ⟨h1, h2, h3, h4⟩ := h
    subst h1
    subst h2
    subst h3
    subst h4
    simp [spec_inferred_bucket]
  | cons c rest ih =>
    intro nu ca te dt h
    obtain ⟨name, series⟩ := c
    by_cases hres : name ∈ reserved
    · rw [show generate_buckets reserved ((name, series) :: rest) =
          generate_buckets reserved rest from by
        simp [generate_buckets, hres]] at h
      have hspec : ∀ t, spec_inferred_bucket ((name, series) :: rest) reserved t =
          spec_inferred_bucket rest reserved t := by
        intro t
        simp [spec_inferred_bucket, hres]
      obtain ⟨h1, h2, h3, h4⟩ := ih nu ca te dt h
      exact ⟨by rw [h1, hspec], by rw [h2, hspec], by rw [h3, hspec],
        by rw [h4, hspec]⟩
    · cases hinf : infer_column_type series with
      | error e =>
        rw [show generate_buckets reserved ((name, series) :: rest) =
            .error e from by simp [generate_buckets, hres, hinf]] at h
        exact Except.noConfusion h
      | ok t =>
        cases hrec : generate_buckets reserved rest with
        | error e =>
          rw [show generate_buckets reserved ((name, series) :: rest) =
              .error e from by simp [generate_buckets, hres, hinf, hrec]] at h
          exact Except.noConfusion h
        | ok tup =>
          obtain ⟨nu2, ca2, te2, dt2⟩ := tup
          have heq : generate_buckets reserved ((name, series) :: rest) =
              .ok ((if t = .Numerical then name :: nu2 else nu2),
                (if t = .Categorical then name :: ca2 else ca2),
                (if t = .Text then name :: te2 else te2),
                (if t = .Datetime then name :: dt2 else dt2)) := by
            simp [generate_buckets, hres, hinf, hrec]
          rw [heq] at h
          simp only [Except.ok.injEq, Prod.mk.injEq] at h
          obtain ⟨h1, h2, h3, h4⟩ := h
          obtain ⟨g1, g2, g3, g4⟩ := ih nu2 ca2 te2 dt2 hrec
          have hspec : ∀ t2,
              spec_inferred_bucket ((name, series) :: rest) reserved t2 =
              (if t = t2 then
                name :: spec_inferred_bucket rest reserved t2
               else spec_inferred_bucket rest reserved t2) := by
            intro t2
            by_cases ht : t = t2
            · subst ht
              simp [spec_inferred_bucket, hres, hinf]
            · simp [spec_inferred_bucket, hres, hinf, ht]
          refine ⟨?_, ?_, ?_, ?_⟩
          · rw [← h1, g1, hspec]
          · rw [← h2, g2, hspec]
          · rw [← h3, g3, hspec]
          · rw [← h4, g4, hspec]

/-- C3 counterexample: with a user-set timestamp, an unset datetime set and
exactly one inferred datetime candidate, the resolved datetime set is the
singleton of the inferred timestamp, not the (empty) inferred datetime set
that the claim's merge rule ("each role set adopts the inferred set iff
the user left it unset") would adopt. -/
theorem schema_resolution_datetime_counterexample :
    cexUserDD.datetime_columns = none ∧
    (_generate_data_definition cexDF (build_reserved_fields cexUserDD)).map
      (fun g => g.datetime_columns) = .ok (some []) ∧
    (resolve_data_definition cexDF (some cexUserDD)).map
      (fun r => r.datetime_columns) = .ok (some ["d"]) ∧
    some ["d"] ≠ (some ([] : List String)) :=
  ⟨rfl, rfl, rfl, by decide⟩

/-- C3 (amended): schema resolution with at least one role set unset.  The
generated schema buckets exactly the non-reserved columns by inferred type
(a single datetime candidate becoming the inferred timestamp and leaving
the generated datetime set empty, any other number of candidates staying
in the datetime set with no inferred timestamp); the merge adopts the
inferred numerical/categorical/text sets exactly when the user left them
unset, adopts the timestamp from inference exactly when the user left it
unset, and fills an unset datetime set with the inferred datetime set
EXCEPT when the user set a timestamp and inference produced one, in which
case the datetime set becomes the singleton of the inferred timestamp. -/
theorem schema_resolution_merge_amended (df : PandasDataFrame)
    (dd gen res : DataDefinition)
    (hU : dd.datetime_columns = none ∨ dd.categorical_columns = none ∨
      dd.text_columns = none ∨ dd.numerical_columns = none)
    (hg : _generate_data_definition df (build_reserved_fields dd) = .ok gen)
    (hr : resolve_data_definition df (some dd) = .ok res) :
    gen.numerical_columns =
      some (spec_inferred_bucket df.cols (build_reserved_fields dd)
        .Numerical) ∧
    gen.categorical_columns =
      some (spec_inferred_bucket df.cols (build_reserved_fields dd)
        .Categorical) ∧
    gen.text_columns =
      some (spec_inferred_bucket df.cols (build_reserved_fields dd) .Text) ∧
    ((spec_inferred_bucket df.cols (build_reserved_fields dd)
        .Datetime).length = 1 →
      gen.timestamp =
        (spec_inferred_bucket df.cols (build_reserved_fields dd)
          .Datetime).head? ∧
      gen.datetime_columns = some []) ∧
    ((spec_inferred_bucket df.cols (build_reserved_fields dd)
        .Datetime).length ≠ 1 →
      gen.timestamp = none ∧
      gen.datetime_columns =
        some (spec_inferred_bucket df.cols (build_reserved_fields dd)
          .Datetime)) ∧
    res.numerical_columns =
      (if dd.numerical_columns = none then gen.numerical_columns
       else dd.numerical_columns) ∧
    res.categorical_columns =
      (if dd.categorical_columns = none then gen.categorical_columns
       else dd.categorical_columns) ∧
    res.text_columns =
      (if dd.text_columns = none then gen.text_columns
       else dd.text_columns) ∧
    res.datetime_columns =
      (if dd.datetime_columns = none then
        (if dd.timestamp ≠ none ∧ gen.timestamp ≠ none then
          some gen.timestamp.toList
         else gen.datetime_columns)
       else dd.datetime_columns) ∧
    res.timestamp =
      (if dd.timestamp = none then gen.timestamp else dd.timestamp) := by
  cases hgb : generate_buckets (build_reserved_fields dd) df.cols with
  | error e =>
    rw [show _generate_data_definition df (build_reserved_fields dd) =
        .error e from by simp [_generate_data_definition, hgb]] at hg
    exact Except.noConfusion hg
  | ok tup =>
    obtain ⟨nu, ca, te, dt⟩ := tup
    obtain ⟨b1, b2, b3, b4⟩ := generate_buckets_eq _ _ _ _ _ _ hgb
    have hgen : gen =
        { timestamp := if dt.length = 1 then dt.head? else none
          numerical_columns := some nu
          categorical_columns := some ca
          datetime_columns := some (if dt.length ≠ 1 then dt else [])
          text_columns := some te } := by
      rw [show _generate_data_definition df (build_reserved_fields dd) =
          .ok { timestamp := if dt.length = 1 then dt.head? else none
                numerical_columns := some nu
                categorical_columns := some ca
                datetime_columns := some (if dt.length ≠ 1 then dt else [])
                text_columns := some te } from by
        simp [_generate_data_definition, hgb]] at hg
      exact (Except.ok.inj hg).symm
    have hres : res =
        merge_timestamp (merge_text_columns (merge_categorical_columns
          (merge_numerical_columns (merge_datetime_columns dd gen) gen) gen)
          gen) gen := by
      simp only [resolve_data_definition] at hr
      rw [if_pos hU, hg] at hr
      exact (Except.ok.inj hr).symm
    have e1 := merge_datetime_columns_fields dd gen
    have e2 := merge_numerical_columns_fields (merge_datetime_columns dd gen)
      gen
    have e3 := merge_categorical_columns_fields
      (merge_numerical_columns (merge_datetime_columns dd gen) gen) gen
    have e4 := merge_text_columns_fields (merge_categorical_columns
      (merge_numerical_columns (merge_datetime_columns dd gen) gen) gen) gen
    have e5 := merge_timestamp_fields (merge_text_columns
      (merge_categorical_columns (merge_numerical_columns
        (merge_datetime_columns dd gen) gen) gen) gen) gen
    subst b1
    subst b2
    subst b3
    subst b4
    refine ⟨by rw [hgen], by rw [hgen], by rw [hgen], ?_, ?_, ?_, ?_, ?_, ?_,
      ?_⟩
    · intro hlen
      constructor
      · rw [hgen]
        simp [hlen]
      · rw [hgen]
        simp [hlen]
    · intro hlen
      constructor
      · rw [hgen]
        simp [hlen]
      · rw [hgen]
        simp [hlen]
    · rw [hres, e5.2.1, e4.2.1, e3.2.1, e2.1, e1.2.1]
    · rw [hres, e5.2.2.1, e4.2.2.1, e3.1, e2.2.1, e1.2.2.1]
    · rw [hres, e5.2.2.2.1, e4.1, e3.2.2.1, e2.2.2.1, e1.2.2.2.1]
    · rw [hres, e5.2.2.2.2, e4.2.2.2.1, e3.2.2.2.1, e2.2.2.2.1, e1.1]
    · rw [hres, e5.1, e4.2.2.2.2, e3.2.2.2.2, e2.2.2.2.2, e1.2.2.2.2]

/-- Closed witness for the amended C3 theorem: over a one-integer-column
table with an entirely unset user schema, the categorical set is adopted
from inference (and resolution returns the record `c3wRes`). -/
theorem schema_resolution_merge_amended_witness :
    resolve_data_definition c3wDF (some c3wDD) = .ok c3wRes ∧
    c3wRes.categorical_columns =
      (if c3wDD.categorical_columns = none then c3wGen.categorical_columns
       else c3wDD.categorical_columns) ∧
    c3wRes.timestamp =
      (if c3wDD.timestamp = none then c3wGen.timestamp else c3wDD.timestamp) :=
  ⟨rfl,
   (schema_resolution_merge_amended c3wDF c3wDD c3wGen c3wRes (Or.inl rfl)
      rfl rfl).2.2.2.2.2.2.1,
   (schema_resolution_merge_amended c3wDF c3wDD c3wGen c3wRes (Or.inl rfl)
      rfl rfl).2.2.2.2.2.2.2.2.2⟩

/-- Appending one character multiplies the decimal value by ten and adds
the digit value. -/
theorem decimalVal_append (cs : List Char) (c : Char) :
    decimalVal (cs ++ [c]) = decimalVal cs * 10 + (c.toNat - 48) := by
  simp [decimalVal, List.foldl_append]

/-- The digit table round-trips through the character code below ten. -/
theorem decimalVal_digit (n : Nat) (h : n < 10) :
    (['0', '1', '2', '3', '4', '5', '6', '7', '8', '9'].getD n '0').toNat -
      48 = n := by
  interval_cases n <;> rfl

/-- The fuel-indexed decimal rendering round-trips through `decimalVal`
whenever the fuel exceeds the number. -/
theorem decimalVal_natDecimalAux (fuel : Nat) :
    ∀ n : Nat, n < fuel → decimalVal (natDecimalAux fuel n) = n := by
  induction fuel with
  | zero =>
    intro n h
    omega
  | succ f ih =>
    intro n h
    unfold natDecimalAux
    by_cases h10 : n < 10
    · rw [if_pos h10]
      have := decimalVal_digit n h10
      simpa [decimalVal] using this
    · rw [if_neg h10]
      rw [decimalVal_append]
      have hdiv : n / 10 < f := by omega
      rw [ih (n / 10) hdiv]
      rw [decimalVal_digit (n % 10) (Nat.mod_lt _ (by norm_num))]
      omega

/-- The underlying character list of the decimal rendering. -/
theorem natDecimal_data (n : Nat) :
    (natDecimal n).data = natDecimalAux (n + 1) n := rfl

/-- Candidate names with different indices differ (the alias and the
underscore cancel, and the decimal renderings round-trip). -/
theorem suffixed_injective (aliasName : String) :
    Function.Injective (suffixed aliasName) := by
  intro a b h
  have hd := congrArg String.data h
  simp only [suffixed, String.data_append, natDecimal_data] at hd
  have h1 := List.append_cancel_left hd
  have ha := decimalVal_natDecimalAux (a + 1) a (by omega)
  have hb := decimalVal_natDecimalAux (b + 1) b (by omega)
  rw [← ha, ← hb, h1]

/-- Correctness of the candidate loop: if some index within fuel range is
free, the loop returns the first free candidate at or after the starting
index (so every index passed over was colliding). -/
theorem determine_loop_spec (aliasName : String) (columns : List String) :
    ∀ (fuel index : Nat),
    (∃ j, index ≤ j ∧ j ≤ index + fuel ∧ suffixed aliasName j ∉ columns) →
    ∃ k, index ≤ k ∧
      determine_loop aliasName columns index fuel = suffixed aliasName k ∧
      suffixed aliasName k ∉ columns ∧
      ∀ j, index ≤ j → j < k → suffixed aliasName j ∈ columns := by
  intro fuel
  induction fuel with
  | zero =>
    intro index h
    obtain ⟨j, hj1, hj2, hj3⟩ := h
    have hj : j = index := by omega
    subst hj
    refine ⟨j, le_refl _, rfl, hj3, ?_⟩
    intro j2 h1 h2
    exact absurd h2 (by omega)
  | succ f ih =>
    intro index h
    by_cases hmem : suffixed aliasName index ∈ columns
    · have hloop : determine_loop aliasName columns index (f + 1) =
          determine_loop aliasName columns (index + 1) f := by
        simp [determine_loop, hmem]
      obtain ⟨j, hj1, hj2, hj3⟩ := h
      have h2 : ∃ j2, index + 1 ≤ j2 ∧ j2 ≤ (index + 1) + f ∧
          suffixed aliasName j2 ∉ columns := by
        refine ⟨j, ?_, by omega, hj3⟩
        rcases Nat.eq_or_lt_of_le hj1 with heq | hlt
        · exact absurd (heq ▸ hmem) hj3
        · omega
      obtain ⟨k, hk1, hk2, hk3, hk4⟩ := ih (index + 1) h2
      refine ⟨k, by omega, by rw [hloop, hk2], hk3, ?_⟩
      intro j2 hj21 hj22
      by_cases hje : j2 = index
      · rw [hje]
        exact hmem
      · exact hk4 j2 (by omega) hj22
    · refine ⟨index, le_refl _, ?_, hmem, ?_⟩
      · simp [determine_loop, hmem]
      · intro j2 h1 h2
        exact absurd h2 (by omega)

/-- Among the first `columns.length + 1` candidate names at least one is
absent from `columns`: they are pairwise distinct, so they cannot all sit
in a list of `columns.length` entries. -/
theorem exists_free_suffixed (aliasName : String) (columns : List String) :
    ∃ j, 1 ≤ j ∧ j ≤ columns.length + 1 ∧
      suffixed aliasName j ∉ columns := by
  by_contra hcon
  push_neg at hcon
  have hsub : ((List.range (columns.length + 1)).map
      (fun i => suffixed aliasName (i + 1))).toFinset ⊆ columns.toFinset := by
    intro x hx
    rw [List.mem_toFinset] at hx ⊢
    rw [List.mem_map] at hx
    obtain ⟨i, hi, rfl⟩ := hx
    rw [List.mem_range] at hi
    exact hcon (i + 1) (by omega) (by omega)
  have hinj : Function.Injective
      (fun i : Nat => suffixed aliasName (i + 1)) := by
    intro a b hab
    have := suffixed_injective aliasName hab
    omega
  have hnodup : ((List.range (columns.length + 1)).map
      (fun i => suffixed aliasName (i + 1))).Nodup :=
    List.Nodup.map hinj (List.nodup_range _)
  have hcard1 : ((List.range (columns.length + 1)).map
      (fun i => suffixed aliasName (i + 1))).toFinset.card =
      columns.length + 1 := by
    rw [List.card_toFinset, hnodup.dedup]
    simp
  have hcard2 := Finset.card_le_card hsub
  have hcard3 := List.toFinset_card_le columns
  omega

/-- The determined descriptor name never collides, is the alias itself
exactly when the alias is free, and is otherwise the first free suffixed
candidate (every smaller positive index collides). -/
theorem determine_name_spec (aliasName : String) (columns : List String) :
    _determine_desccriptor_column_name aliasName columns ∉ columns ∧
    (aliasName ∉ columns →
      _determine_desccriptor_column_name aliasName columns = aliasName) ∧
    (aliasName ∈ columns → ∃ k, 1 ≤ k ∧
      _determine_desccriptor_column_name aliasName columns =
        suffixed aliasName k ∧
      ∀ j, 1 ≤ j → j < k → suffixed aliasName j ∈ columns) := by
  by_cases h : aliasName ∈ columns
  · obtain ⟨j, hj1, hj2, hj3⟩ := exists_free_suffixed aliasName columns
    have hex : ∃ j2, 1 ≤ j2 ∧ j2 ≤ 1 + (columns.length + 1) ∧
        suffixed aliasName j2 ∉ columns := ⟨j, hj1, by omega, hj3⟩
    obtain ⟨k, hk1, hk2, hk3, hk4⟩ :=
      determine_loop_spec aliasName columns (columns.length + 1) 1 hex
    have hname : _determine_desccriptor_column_name aliasName columns =
        suffixed aliasName k := by
      rw [show _determine_desccriptor_column_name aliasName columns =
          determine_loop aliasName columns 1 (columns.length + 1) from by
        simp [_determine_desccriptor_column_name, h], hk2]
    refine ⟨hname ▸ hk3, fun hn => absurd h hn, fun _ => ⟨k, hk1, hname, ?_⟩⟩
    intro j2 hj21 hj22
    exact hk4 j2 hj21 hj22
  · have hname : _determine_desccriptor_column_name aliasName columns =
        aliasName := by
      simp [_determine_desccriptor_column_name, h]
    exact ⟨by rw [hname]; exact h, fun _ => hname,
      fun hmem => absurd hmem h⟩

/-- C6: descriptors are applied strictly in order, each observing the state
the previous one left (first conjunct, the sequencing equation of
`add_descriptors`); every proposed name is resolved against the current
table columns to the alias itself when free and otherwise to the first
free `_1`, `_2`, … suffixed candidate, never colliding (second to fourth
conjuncts); in particular, two descriptors both proposing the alias
"score" against a table with columns "a" and "b" yield the derived
columns "score" and "score_1", in application order (last conjunct). -/
theorem descriptor_naming_and_order (st : PandasDatasetState)
    (d : PDescriptor) (ds : List PDescriptor) (aliasName : String)
    (columns : List String) :
    (add_descriptors st (d :: ds) =
      match add_descriptor st d with
      | .error e => .error e
      | .ok st2 => add_descriptors st2 ds) ∧
    _determine_desccriptor_column_name aliasName columns ∉ columns ∧
    (aliasName ∉ columns →
      _determine_desccriptor_column_name aliasName columns = aliasName) ∧
    (aliasName ∈ columns → ∃ k, 1 ≤ k ∧
      _determine_desccriptor_column_name aliasName columns =
        suffixed aliasName k ∧
      ∀ j, 1 ≤ j → j < k → suffixed aliasName j ∈ columns) ∧
    (add_descriptors scoreBaseState [scoreDescriptor, scoreDescriptor]).map
      (fun st2 => st2.data.map Prod.fst) =
      .ok ["a", "b", "score", "score_1"] := by
  have hd := determine_name_spec aliasName columns
  exact ⟨rfl, hd.1, hd.2.1, hd.2.2, rfl⟩

/-- Closed witness for C6: the naming theorem applied to the concrete
colliding alias "score" against the columns ["a", "b", "score"]. -/
theorem descriptor_naming_and_order_witness :
    "score" ∈ ["a", "b", "score"] ∧
    (∃ k, 1 ≤ k ∧
      _determine_desccriptor_column_name "score" ["a", "b", "score"] =
        suffixed "score" k ∧
      ∀ j, 1 ≤ j → j < k → suffixed "score" j ∈ ["a", "b", "score"]) :=
  ⟨by decide,
   (descriptor_naming_and_order scoreBaseState scoreDescriptor []
      "score" ["a", "b", "score"]).2.2.2.1 (by decide)⟩

end Evidently
